import Mathlib

/-!
Shallow embedding of the real-time analytics core of the izishop backend
(src/services/analytics_service.py, src/services/websocket_service.py,
src/models/analytics.py, src/routers/analytics.py), together with theorems
settling the specification claims about it.

Modelling conventions:
* Python `datetime` values are minutes on a UTC clock (`Nat`); `timedelta(hours=h)`
  is `h * 60` minutes and `timedelta(days=d)` is `d * 1440` minutes.
* `strftime "%Y-%m-%d"` / `strftime "%Y-%m-%d-%H"` bucket-key strings are modelled
  by the injective `TimeKey` constructors `dayK (t / 1440)` / `hourK (t / 60)`;
  the Python slice `time_key[:10]` (keeping the day part of an hour key) is
  `TimeKey.truncToDay`.
* Python float arithmetic is modelled as exact rational arithmetic over `ℚ`.
* Python truthiness of optional integer ids (`if shop_id:`) is `truthyNat`
  (absent or zero is falsy); truthiness of optional strings is `truthyStr`.
* sklearn's `IsolationForest.fit_predict` is a pluggable outlier test (spec §4.2);
  it is a `List ℚ → Bool` parameter deciding whether the last point is flagged.
* Fresh `uuid.uuid4()` strings are explicit parameters of the operations that
  mint them.
-/

namespace IziShop

/-- Bucket key abstraction of the `date_key` ("YYYY-MM-DD") and `hour_key`
("YYYY-MM-DD-HH") strings of `AnalyticsMetric` (src/models/analytics.py lines 32-33). -/
inductive TimeKey where
  | dayK (d : Nat)
  | hourK (h : Nat)
deriving DecidableEq, Repr

/-- Python slice `time_key[:10]`: an hour key "YYYY-MM-DD-HH" truncated to its day
"YYYY-MM-DD"; a day key is unchanged (it is already 10 characters). -/
def TimeKey.truncToDay : TimeKey → TimeKey
  | .dayK d => .dayK d
  | .hourK h => .dayK (h / 24)

/-- The day bucket of a clock value, `timestamp.strftime "%Y-%m-%d"`. -/
def dayKeyOf (t : Nat) : TimeKey := .dayK (t / 1440)

/-- The hour bucket of a clock value, `timestamp.strftime "%Y-%m-%d-%H"`. -/
def hourKeyOf (t : Nat) : TimeKey := .hourK (t / 60)

/-- Python truthiness of an optional integer (`None` and `0` are falsy). -/
def truthyNat : Option Nat → Bool
  | none => false
  | some n => n != 0

/-- Python truthiness of an optional string (`None` and `""` are falsy). -/
def truthyStr : Option String → Bool
  | none => false
  | some s => s != ""

/-- Row of the `analytics_metrics` table (src/models/analytics.py lines 23-67).
Fields not read by any embedded operation (metadata, created_at, updated_at,
user_role) are omitted. -/
structure AnalyticsMetric where
  metric_type : String
  granularity : String
  date_key : TimeKey
  hour_key : Option TimeKey
  shop_id : Option Nat
  category_id : Option Nat
  region : String
  value : ℚ
  count : Nat
  timestamp : Nat
deriving DecidableEq, Repr

/-- Row of the `realtime_events` table (src/models/analytics.py lines 69-92). -/
structure RealtimeEvent where
  event_id : String
  event_type : String
  entity_type : String
  entity_id : Option Nat
  processed : Bool
  processed_at : Option Nat
deriving DecidableEq, Repr

/-- Row of the `ml_forecasts` table (src/models/analytics.py lines 94-124). -/
structure MLForecast where
  forecast_id : String
  metric_type : String
  forecast_date : Nat
  predicted_value : ℚ
  confidence_lower : ℚ
  confidence_upper : ℚ
  model_name : String
  model_version : String
  shop_id : Option Nat
  category_id : Option Nat
  region : Option String
deriving DecidableEq, Repr

/-- Row of the `anomaly_detections` table (src/models/analytics.py lines 126-161). -/
structure AnomalyDetection where
  detection_id : String
  metric_type : String
  timestamp : Nat
  actual_value : ℚ
  expected_value : ℚ
  anomaly_score : ℚ
  severity : String
  algorithm : String
  threshold : ℚ
  shop_id : Option Nat
  category_id : Option Nat
  region : Option String
deriving DecidableEq, Repr

/-- Row of the `analytics_audit_logs` table (src/models/analytics.py lines 163-200). -/
structure AnalyticsAuditLog where
  log_id : String
  user_id : Nat
  user_role : String
  action : String
  resource : String
  time_range : Option String
  status : String
  error_message : Option String
deriving DecidableEq, Repr

/-- The payload dictionary `event_data` handed to
`AnalyticsService.process_realtime_event`.  `amount` models
`event_data.get("amount", 0)` (absent key allowed), `region` models
`event_data.get("region", ...)`, `occurred_at` is the domain timestamp the
spec's RawEvent carries in its payload. -/
structure EventData where
  event_type : String
  entity_type : String
  entity_id : Option Nat
  shop_id : Option Nat
  category_id : Option Nat
  region : Option String
  amount : Option ℚ
  occurred_at : Option Nat
deriving DecidableEq, Repr

/-- The analytics tables reachable from the SQLAlchemy `Session`. -/
structure DBState where
  metrics : List AnalyticsMetric
  events : List RealtimeEvent
  forecasts : List MLForecast
  anomalies : List AnomalyDetection
  audit_logs : List AnalyticsAuditLog
deriving DecidableEq, Repr

/-- A database with every analytics table empty. -/
def emptyDB : DBState := ⟨[], [], [], [], []⟩

/-- Stable ascending insertion by a `Nat` key. -/
def insertAscBy (key : α → Nat) (x : α) : List α → List α
  | [] => [x]
  | y :: ys => if key x ≤ key y then x :: y :: ys else y :: insertAscBy key x ys

/-- Stable ascending sort by a `Nat` key; models SQL `ORDER BY ... ASC`. -/
def sortAscBy (key : α → Nat) : List α → List α
  | [] => []
  | x :: xs => insertAscBy key x (sortAscBy key xs)

/-- Stable descending insertion by a `Nat` key. -/
def insertDescBy (key : α → Nat) (x : α) : List α → List α
  | [] => [x]
  | y :: ys => if key y ≤ key x then x :: y :: ys else y :: insertDescBy key x ys

/-- Stable descending sort by a `Nat` key; models SQL `ORDER BY ... DESC`. -/
def sortDescBy (key : α → Nat) : List α → List α
  | [] => []
  | x :: xs => insertDescBy key x (sortDescBy key xs)

/-- Mean of a list of rationals, `np.mean`; division by zero on the empty list
yields `0` (Lean's rational division by zero). -/
def listMean (l : List ℚ) : ℚ := l.sum / l.length

/-- The deviation ratio of analytics_service.py line 436:
`abs(latest - expected) / expected if expected > 0 else 0`. -/
def deviationRatio (actual expected : ℚ) : ℚ :=
  if expected > 0 then |actual - expected| / expected else 0

/-- Severity bucketing of `AnalyticsService._detect_anomalies`
(analytics_service.py lines 436-444): strictly greater-than thresholds
0.5 / 0.3 / 0.15 on the deviation ratio. -/
def severityOf (actual expected : ℚ) : String :=
  if deviationRatio actual expected > 1/2 then "critical"
  else if deviationRatio actual expected > 3/10 then "high"
  else if deviationRatio actual expected > 3/20 then "medium"
  else "low"

/-- Event-type to metric-type mapping of
`AnalyticsService._get_metric_type_from_event` (analytics_service.py lines 465-474). -/
def _get_metric_type_from_event (event_data : EventData) : Option String :=
  if event_data.event_type == "order_created" || event_data.event_type == "order_completed" then
    some "orders"
  else if event_data.event_type == "payment_completed" || event_data.event_type == "payment_success" then
    some "revenue"
  else if event_data.event_type == "user_registered" then
    some "users"
  else
    none

/-- Lookup condition of `AnalyticsService._upsert_metric` (analytics_service.py
lines 283-292): the same metric type, granularity, time bucket (the `date_key`
column when the granularity is daily, the `hour_key` column otherwise) and
dimension tuple. -/
def metricKeyMatches (metric_type granularity : String) (time_key : TimeKey)
    (shop_id category_id : Option Nat) (region : String) (m : AnalyticsMetric) : Prop :=
  m.metric_type = metric_type ∧ m.granularity = granularity ∧
  (if granularity = "daily" then m.date_key = time_key else m.hour_key = some time_key) ∧
  m.shop_id = shop_id ∧ m.category_id = category_id ∧ m.region = region

instance (mt g : String) (tk : TimeKey) (s c : Option Nat) (r : String) (m : AnalyticsMetric) :
    Decidable (metricKeyMatches mt g tk s c r m) := by
  unfold metricKeyMatches; infer_instance

/-- The fresh row created by `AnalyticsService._upsert_metric` when no existing
row matches (analytics_service.py lines 300-312); `AnalyticsMetric.timestamp`
defaults to `datetime.utcnow()`, the processing clock `now`. -/
def newMetricRow (metric_type granularity : String) (time_key : TimeKey)
    (shop_id category_id : Option Nat) (region : String) (value : ℚ) (count : Nat)
    (now : Nat) : AnalyticsMetric :=
  { metric_type := metric_type
    granularity := granularity
    date_key := if granularity = "daily" then time_key else time_key.truncToDay
    hour_key := if granularity = "hourly" then some time_key else none
    shop_id := shop_id
    category_id := category_id
    region := region
    value := value
    count := count
    timestamp := now }

/-- `AnalyticsService._upsert_metric` (analytics_service.py lines 276-312):
find the first row matching the key and add `value` / `count` onto it, or append
a fresh row when none matches. -/
def _upsert_metric (metrics : List AnalyticsMetric) (metric_type granularity : String)
    (time_key : TimeKey) (shop_id category_id : Option Nat) (region : String)
    (value : ℚ) (count : Nat) (now : Nat) : List AnalyticsMetric :=
  match metrics with
  | [] => [newMetricRow metric_type granularity time_key shop_id category_id region value count now]
  | m :: rest =>
    if metricKeyMatches metric_type granularity time_key shop_id category_id region m then
      { m with value := m.value + value, count := m.count + count } :: rest
    else
      m :: _upsert_metric rest metric_type granularity time_key shop_id category_id region value count now

/-- `AnalyticsService._update_metrics_from_event` (analytics_service.py lines
230-274).  Note the source computes the bucket keys from
`timestamp = datetime.utcnow()` — the processing clock `now` — and never reads
the event's `occurred_at`. -/
def _update_metrics_from_event (metrics : List AnalyticsMetric) (event_data : EventData)
    (now : Nat) : List AnalyticsMetric :=
  let date_key := dayKeyOf now
  let hour_key := hourKeyOf now
  let shop_id := event_data.shop_id
  let category_id := event_data.category_id
  let region := event_data.region.getD "unknown"
  if event_data.event_type == "order_created" then
    let m1 := _upsert_metric metrics "orders" "hourly" hour_key shop_id category_id region 1 1 now
    _upsert_metric m1 "orders" "daily" date_key shop_id category_id region 1 1 now
  else if event_data.event_type == "payment_completed" then
    let amount := event_data.amount.getD 0
    let m1 := _upsert_metric metrics "revenue" "hourly" hour_key shop_id category_id region amount 1 now
    _upsert_metric m1 "revenue" "daily" date_key shop_id category_id region amount 1 now
  else if event_data.event_type == "user_registered" then
    let m1 := _upsert_metric metrics "users" "hourly" hour_key none none region 1 1 now
    _upsert_metric m1 "users" "daily" date_key none none region 1 1 now
  else
    metrics

/-- `AnalyticsService._detect_anomalies` (analytics_service.py lines 399-463).
The sklearn `IsolationForest` is the pluggable outlier test `iforest`, told the
hourly values in ascending timestamp order and answering whether the latest
value is flagged (`fit_predict`'s last entry being `-1`); `detection_id` is the
fresh uuid.  Returns the anomaly rows added to the session (none or one). -/
def _detect_anomalies (iforest : List ℚ → Bool) (st : DBState) (event_data : EventData)
    (now : Nat) (detection_id : String) : List AnomalyDetection :=
  match _get_metric_type_from_event event_data with
  | none => []
  | some metric_type =>
    let start_time := now - 1440
    let recent_metrics := sortAscBy (fun m => m.timestamp)
      (st.metrics.filter (fun m =>
        m.metric_type == metric_type && m.granularity == "hourly" &&
        decide (start_time ≤ m.timestamp)))
    if recent_metrics.length < 10 then []
    else
      let values := recent_metrics.map (fun m => m.value)
      if iforest values then
        let actual_value := values.getLastD 0
        let expected_value := listMean values.dropLast
        [{ detection_id := detection_id
           metric_type := metric_type
           timestamp := now
           actual_value := actual_value
           expected_value := expected_value
           anomaly_score := -1
           severity := severityOf actual_value expected_value
           algorithm := "isolation_forest"
           threshold := 1/10
           shop_id := event_data.shop_id
           category_id := event_data.category_id
           region := event_data.region }]
      else []

/-- `AnalyticsService.process_realtime_event` (analytics_service.py lines
194-228).  A fresh `event_id` uuid is minted on every call (line 199) — the
stored `RealtimeEvent` never carries a caller-chosen id — and the metric update
runs unconditionally, with no duplicate check against previously stored events.
Returns the committed database state and the response status. -/
def process_realtime_event (iforest : List ℚ → Bool) (st : DBState) (event_data : EventData)
    (now : Nat) (event_id detection_id : String) : DBState × String :=
  let metrics2 := _update_metrics_from_event st.metrics event_data now
  let st2 : DBState := { st with metrics := metrics2 }
  let newAnomalies := _detect_anomalies iforest st2 event_data now detection_id
  let processed_event : RealtimeEvent :=
    { event_id := event_id
      event_type := event_data.event_type
      entity_type := event_data.entity_type
      entity_id := event_data.entity_id
      processed := true
      processed_at := some now }
  ({ st2 with
      anomalies := st2.anomalies ++ newAnomalies
      events := st2.events ++ [processed_event] },
   "processed")

/-- Upsert appends a fresh row when no existing row matches the key. -/
theorem upsert_of_no_match (ms : List AnalyticsMetric) (mt g : String) (tk : TimeKey)
    (s c : Option Nat) (r : String) (v : ℚ) (cnt now : Nat)
    (h : ∀ m ∈ ms, ¬ metricKeyMatches mt g tk s c r m) :
    _upsert_metric ms mt g tk s c r v cnt now = ms ++ [newMetricRow mt g tk s c r v cnt now] := by
  induction ms with
  | nil => rfl
  | cons m rest ih =>
    rw [_upsert_metric, if_neg (h m (List.mem_cons_self m rest))]
    rw [ih (fun x hx => h x (List.mem_cons_of_mem m hx))]
    rfl

/-- Upsert updates the first matching row in place and leaves the rest alone. -/
theorem upsert_of_first_match (xs ys : List AnalyticsMetric) (rrow : AnalyticsMetric)
    (mt g : String) (tk : TimeKey) (s c : Option Nat) (r : String) (v : ℚ) (cnt now : Nat)
    (hxs : ∀ m ∈ xs, ¬ metricKeyMatches mt g tk s c r m)
    (hr : metricKeyMatches mt g tk s c r rrow) :
    _upsert_metric (xs ++ rrow :: ys) mt g tk s c r v cnt now
      = xs ++ { rrow with value := rrow.value + v, count := rrow.count + cnt } :: ys := by
  induction xs with
  | nil => simp [_upsert_metric, if_pos hr]
  | cons x xs ih =>
    rw [List.cons_append, _upsert_metric, if_neg (hxs x (List.mem_cons_self x xs))]
    rw [ih (fun m hm => hxs m (List.mem_cons_of_mem x hm))]
    rfl

/-- The hourly "orders" bucket row after `k` ingested `order_created` events, as
created and maintained by `_upsert_metric` for processing clock `now`. -/
def ordersHourlyRow (e : EventData) (now : Nat) (k : Nat) : AnalyticsMetric :=
  { metric_type := "orders"
    granularity := "hourly"
    date_key := (hourKeyOf now).truncToDay
    hour_key := some (hourKeyOf now)
    shop_id := e.shop_id
    category_id := e.category_id
    region := e.region.getD "unknown"
    value := k
    count := k
    timestamp := now }

/-- The daily "orders" bucket row after `k` ingested `order_created` events. -/
def ordersDailyRow (e : EventData) (now : Nat) (k : Nat) : AnalyticsMetric :=
  { metric_type := "orders"
    granularity := "daily"
    date_key := dayKeyOf now
    hour_key := none
    shop_id := e.shop_id
    category_id := e.category_id
    region := e.region.getD "unknown"
    value := k
    count := k
    timestamp := now }

theorem ordersHourlyRow_matches (e : EventData) (now k : Nat) :
    metricKeyMatches "orders" "hourly" (hourKeyOf now) e.shop_id e.category_id
      (e.region.getD "unknown") (ordersHourlyRow e now k) := by
  simp +decide [metricKeyMatches, ordersHourlyRow]

theorem ordersHourlyRow_not_daily (e : EventData) (now k : Nat) (tk : TimeKey)
    (s c : Option Nat) (r : String) :
    ¬ metricKeyMatches "orders" "daily" tk s c r (ordersHourlyRow e now k) := by
  simp +decide [metricKeyMatches, ordersHourlyRow]

theorem ordersDailyRow_matches (e : EventData) (now k : Nat) :
    metricKeyMatches "orders" "daily" (dayKeyOf now) e.shop_id e.category_id
      (e.region.getD "unknown") (ordersDailyRow e now k) := by
  simp +decide [metricKeyMatches, ordersDailyRow]

theorem ordersDailyRow_not_hourly (e : EventData) (now k : Nat) (tk : TimeKey)
    (s c : Option Nat) (r : String) :
    ¬ metricKeyMatches "orders" "hourly" tk s c r (ordersDailyRow e now k) := by
  simp +decide [metricKeyMatches, ordersDailyRow]

theorem newMetricRow_orders_hourly (e : EventData) (now : Nat) :
    newMetricRow "orders" "hourly" (hourKeyOf now) e.shop_id e.category_id
      (e.region.getD "unknown") 1 1 now = ordersHourlyRow e now 1 := by
  simp +decide [newMetricRow, ordersHourlyRow]

theorem newMetricRow_orders_daily (e : EventData) (now : Nat) :
    newMetricRow "orders" "daily" (dayKeyOf now) e.shop_id e.category_id
      (e.region.getD "unknown") 1 1 now = ordersDailyRow e now 1 := by
  simp +decide [newMetricRow, ordersDailyRow]

theorem ordersHourlyRow_succ (e : EventData) (now k : Nat) :
    ({ ordersHourlyRow e now k with
        value := (ordersHourlyRow e now k).value + 1,
        count := (ordersHourlyRow e now k).count + 1 } : AnalyticsMetric)
      = ordersHourlyRow e now (k + 1) := by
  simp [ordersHourlyRow]

theorem ordersDailyRow_succ (e : EventData) (now k : Nat) :
    ({ ordersDailyRow e now k with
        value := (ordersDailyRow e now k).value + 1,
        count := (ordersDailyRow e now k).count + 1 } : AnalyticsMetric)
      = ordersDailyRow e now (k + 1) := by
  simp [ordersDailyRow]

/-- The bucket addressed by an `order_created` event at processing clock `now`
is fresh in `metrics`: no row matches its hourly or its daily key. -/
def noOrdersRows (metrics : List AnalyticsMetric) (e : EventData) (now : Nat) : Prop :=
  (∀ m ∈ metrics, ¬ metricKeyMatches "orders" "hourly" (hourKeyOf now) e.shop_id
      e.category_id (e.region.getD "unknown") m) ∧
  (∀ m ∈ metrics, ¬ metricKeyMatches "orders" "daily" (dayKeyOf now) e.shop_id
      e.category_id (e.region.getD "unknown") m)

theorem update_metrics_fresh (e : EventData) (now : Nat) (ms : List AnalyticsMetric)
    (he : e.event_type = "order_created") (h : noOrdersRows ms e now) :
    _update_metrics_from_event ms e now
      = ms ++ [ordersHourlyRow e now 1, ordersDailyRow e now 1] := by
  rw [_update_metrics_from_event]
  simp only [he]
  rw [if_pos (show (("order_created" : String) == "order_created") = true from rfl)]
  rw [upsert_of_no_match _ _ _ _ _ _ _ _ _ _ h.1, newMetricRow_orders_hourly]
  rw [upsert_of_no_match, newMetricRow_orders_daily, List.append_assoc]
  rfl
  intro m hm
  rcases List.mem_append.mp hm with hm | hm
  · exact h.2 m hm
  · rcases List.mem_singleton.mp hm with rfl
    exact ordersHourlyRow_not_daily e now 1 _ _ _ _

theorem update_metrics_step (e : EventData) (now : Nat) (ms : List AnalyticsMetric) (k : Nat)
    (he : e.event_type = "order_created") (h : noOrdersRows ms e now) :
    _update_metrics_from_event (ms ++ [ordersHourlyRow e now k, ordersDailyRow e now k]) e now
      = ms ++ [ordersHourlyRow e now (k + 1), ordersDailyRow e now (k + 1)] := by
  rw [_update_metrics_from_event]
  simp only [he]
  rw [if_pos (show (("order_created" : String) == "order_created") = true from rfl)]
  have h1 := upsert_of_first_match ms [ordersDailyRow e now k] (ordersHourlyRow e now k)
    "orders" "hourly" (hourKeyOf now) e.shop_id e.category_id (e.region.getD "unknown")
    1 1 now h.1 (ordersHourlyRow_matches e now k)
  rw [show (ms ++ [ordersHourlyRow e now k, ordersDailyRow e now k])
        = ms ++ ordersHourlyRow e now k :: [ordersDailyRow e now k] from rfl]
  rw [h1, ordersHourlyRow_succ]
  have h2 := upsert_of_first_match (ms ++ [ordersHourlyRow e now (k + 1)]) []
    (ordersDailyRow e now k)
    "orders" "daily" (dayKeyOf now) e.shop_id e.category_id (e.region.getD "unknown")
    1 1 now ?_ (ordersDailyRow_matches e now k)
  · rw [show (ms ++ ordersHourlyRow e now (k + 1) :: [ordersDailyRow e now k])
        = (ms ++ [ordersHourlyRow e now (k + 1)]) ++ ordersDailyRow e now k :: [] from by simp]
    rw [h2, ordersDailyRow_succ]
    simp
  · intro m hm
    rcases List.mem_append.mp hm with hm | hm
    · exact h.2 m hm
    · rcases List.mem_singleton.mp hm with rfl
      exact ordersHourlyRow_not_daily e now (k + 1) _ _ _ _

/-- Ingesting a batch of events through `process_realtime_event`, one fresh
`event_id` uuid per call (the detection uuid derived alongside). -/
def processK (iforest : List ℚ → Bool) (ids : List String) (e : EventData) (now : Nat)
    (st : DBState) : DBState :=
  ids.foldl (fun s event_id =>
    (process_realtime_event iforest s e now event_id (event_id ++ "-det")).1) st

theorem process_metrics_eq (iforest : List ℚ → Bool) (st : DBState) (e : EventData)
    (now : Nat) (eid did : String) :
    ((process_realtime_event iforest st e now eid did).1).metrics
      = _update_metrics_from_event st.metrics e now := rfl

theorem processK_metrics_aux (iforest : List ℚ → Bool) (e : EventData) (now : Nat)
    (base : List AnalyticsMetric) (he : e.event_type = "order_created")
    (hbase : noOrdersRows base e now) :
    ∀ (ids : List String) (k : Nat) (st : DBState),
      st.metrics = base ++ [ordersHourlyRow e now k, ordersDailyRow e now k] →
      (processK iforest ids e now st).metrics
        = base ++ [ordersHourlyRow e now (k + ids.length),
                   ordersDailyRow e now (k + ids.length)] := by
  intro ids
  induction ids with
  | nil => intro k st hst; simpa [processK] using hst
  | cons a rest ih =>
    intro k st hst
    have h1 : ((process_realtime_event iforest st e now a (a ++ "-det")).1).metrics
        = base ++ [ordersHourlyRow e now (k + 1), ordersDailyRow e now (k + 1)] := by
      rw [process_metrics_eq, hst]
      exact update_metrics_step e now base k he hbase
    have h2 := ih (k + 1) _ h1
    have h3 : processK iforest (a :: rest) e now st
        = processK iforest rest e now ((process_realtime_event iforest st e now a (a ++ "-det")).1) := rfl
    rw [h3, h2]
    have : k + 1 + rest.length = k + (rest.length + 1) := by omega
    simp [this]

/-- An `order_created` event payload used in the concrete ingestion runs; its
domain timestamp `occurred_at` is minute 600 (hour bucket 10) and is carried in
the payload exactly as the spec's RawEvent carries it. -/
def demoOrderEvent : EventData :=
  { event_type := "order_created"
    entity_type := "order"
    entity_id := some 5
    shop_id := some 1
    category_id := none
    region := some "littoral"
    amount := none
    occurred_at := some 600 }

/-- Database after submitting `demoOrderEvent` once at processing clock 720. -/
def replaySt1 : DBState :=
  (process_realtime_event (fun _ => false) emptyDB demoOrderEvent 720 "id1" "d1").1

/-- Database after submitting the very same event a second time. -/
def replaySt2 : DBState :=
  (process_realtime_event (fun _ => false) replaySt1 demoOrderEvent 720 "id2" "d2").1

/-- C1: the claim says resubmitting an event is a no-op because ingestion is
keyed by `event_id`; the code instead mints a fresh uuid per call
(analytics_service.py line 199) and updates the metrics unconditionally, so the
second submission of the same `order_created` event raises both "orders" bucket
rows from value 1 / sample_count 1 to value 2 / sample_count 2 — a double count. -/
theorem c1_replay_double_counts :
    (replaySt1.metrics.map (fun m => (m.granularity, m.value, m.count)))
      = [("hourly", 1, 1), ("daily", 1, 1)]
    ∧ (replaySt2.metrics.map (fun m => (m.granularity, m.value, m.count)))
      = [("hourly", 2, 2), ("daily", 2, 2)] := by
  norm_num +decide [replaySt1, replaySt2, demoOrderEvent, process_realtime_event,
    _update_metrics_from_event, _upsert_metric, newMetricRow, metricKeyMatches,
    emptyDB, hourKeyOf, dayKeyOf, TimeKey.truncToDay]

/-- Database after submitting `demoOrderEvent` (occurred_at in hour bucket 10)
twice, at processing clocks 720 (hour bucket 12) and 780 (hour bucket 13). -/
def c2BucketSt : DBState :=
  (process_realtime_event (fun _ => false)
    (process_realtime_event (fun _ => false) emptyDB demoOrderEvent 720 "a" "x").1
    demoOrderEvent 780 "b" "y").1

/-- C2 counterexample: two `order_created` events whose `occurred_at` falls in
the same (initially empty) hourly bucket 10 do NOT yield one hourly MetricPoint
with value 2: the code buckets by the processing wall clock
(`datetime.utcnow()`, analytics_service.py line 233), producing two hourly rows
(buckets 12 and 13) with value 1 each, and no row at all in bucket 10, the
bucket of `occurred_at`. -/
theorem c2_counterexample_occurred_at_ignored :
    demoOrderEvent.occurred_at = some 600
    ∧ hourKeyOf 600 = TimeKey.hourK 10
    ∧ ((c2BucketSt.metrics.filter (fun m => m.granularity == "hourly")).map
        (fun m => (m.hour_key, m.value, m.count)))
      = [(some (TimeKey.hourK 12), 1, 1), (some (TimeKey.hourK 13), 1, 1)]
    ∧ c2BucketSt.metrics.filter (fun m => m.hour_key == some (TimeKey.hourK 10)) = [] := by
  refine ⟨rfl, rfl, ?_⟩
  norm_num +decide [c2BucketSt, demoOrderEvent, process_realtime_event,
    _update_metrics_from_event, _upsert_metric, newMetricRow, metricKeyMatches,
    emptyDB, hourKeyOf, dayKeyOf, TimeKey.truncToDay]

/-- C2 (amended): bucket keys come from the processing wall clock, not from
`occurred_at`.  For every K ≥ 1, ingesting K `order_created` events processed at
the same clock `now` into a store whose addressed bucket is fresh yields exactly
one "orders" MetricPoint per granularity (hourly and daily) appended to the
store, with value K and sample_count K: each event adds its delta of 1 to the
value and 1 to the sample count of both bucket rows. -/
theorem c2_fresh_bucket_counts (iforest : List ℚ → Bool) (ids : List String)
    (e : EventData) (now : Nat) (st : DBState)
    (he : e.event_type = "order_created") (hne : ids ≠ [])
    (hfresh : noOrdersRows st.metrics e now) :
    (processK iforest ids e now st).metrics
      = st.metrics ++ [ordersHourlyRow e now ids.length, ordersDailyRow e now ids.length]
    ∧ (ordersHourlyRow e now ids.length).value = (ids.length : ℚ)
    ∧ (ordersHourlyRow e now ids.length).count = ids.length
    ∧ (ordersDailyRow e now ids.length).value = (ids.length : ℚ)
    ∧ (ordersDailyRow e now ids.length).count = ids.length := by
  refine ⟨?_, rfl, rfl, rfl, rfl⟩
  cases ids with
  | nil => exact absurd rfl hne
  | cons a rest =>
    have h1 : ((process_realtime_event iforest st e now a (a ++ "-det")).1).metrics
        = st.metrics ++ [ordersHourlyRow e now 1, ordersDailyRow e now 1] := by
      rw [process_metrics_eq]
      exact update_metrics_fresh e now st.metrics he hfresh
    have h2 := processK_metrics_aux iforest e now st.metrics he hfresh rest 1 _ h1
    have h3 : processK iforest (a :: rest) e now st
        = processK iforest rest e now
            ((process_realtime_event iforest st e now a (a ++ "-det")).1) := rfl
    rw [h3, h2]
    have h4 : 1 + rest.length = (a :: rest).length := by simp [Nat.add_comm]
    rw [h4]

/-- Witness for `c2_fresh_bucket_counts` at two concrete events. -/
theorem c2_fresh_bucket_counts_witness :
    (processK (fun _ => false) ["a", "b"] demoOrderEvent 720 emptyDB).metrics
      = emptyDB.metrics
        ++ [ordersHourlyRow demoOrderEvent 720 2, ordersDailyRow demoOrderEvent 720 2]
    ∧ (ordersHourlyRow demoOrderEvent 720 2).value = ((2 : Nat) : ℚ)
    ∧ (ordersHourlyRow demoOrderEvent 720 2).count = 2
    ∧ (ordersDailyRow demoOrderEvent 720 2).value = ((2 : Nat) : ℚ)
    ∧ (ordersDailyRow demoOrderEvent 720 2).count = 2 :=
  c2_fresh_bucket_counts (fun _ => false) ["a", "b"] demoOrderEvent 720 emptyDB rfl
    (by simp) (by constructor <;> intro m hm <;> simp [emptyDB] at hm)

/-- An hourly "revenue" metric row for the anomaly-detection baseline runs. -/
def anomalyBaselineRow (i : Nat) (v : ℚ) : AnalyticsMetric :=
  { metric_type := "revenue"
    granularity := "hourly"
    date_key := .dayK 0
    hour_key := some (.hourK i)
    shop_id := some 1
    category_id := none
    region := "littoral"
    value := v
    count := 1
    timestamp := i * 60 }

/-- Ten hourly revenue points at 100 followed by an eleventh at 1000, all inside
the trailing-24h window of clock 1440. -/
def anomalyDemoDB : DBState :=
  { emptyDB with
    metrics := ((List.range 10).map (fun i => anomalyBaselineRow i 100))
      ++ [anomalyBaselineRow 10 1000] }

/-- The `payment_completed` event whose processing triggers the detection run. -/
def demoPaymentEvent : EventData :=
  { event_type := "payment_completed"
    entity_type := "payment"
    entity_id := some 9
    shop_id := some 1
    category_id := none
    region := some "littoral"
    amount := some 1000
    occurred_at := none }

/-- C4 (amended): the recorded severity is determined by the deviation ratio
through STRICT thresholds (analytics_service.py lines 437-444 use `>`, not `≥`):
"critical" when the ratio exceeds 0.5, "high" when it exceeds 0.3 (up to 0.5),
"medium" when it exceeds 0.15 (up to 0.3), and "low" otherwise; and a baseline
of 10 hourly points at 100 followed by an 11th point at 1000 (ratio 9.0) makes
`_detect_anomalies` record exactly one anomaly with severity "critical". -/
theorem c4_severity_thresholds (a e : ℚ) (he : 0 < e) :
    (1/2 < |a - e| / e → severityOf a e = "critical")
    ∧ (3/10 < |a - e| / e ∧ |a - e| / e ≤ 1/2 → severityOf a e = "high")
    ∧ (3/20 < |a - e| / e ∧ |a - e| / e ≤ 3/10 → severityOf a e = "medium")
    ∧ (|a - e| / e ≤ 3/20 → severityOf a e = "low")
    ∧ (_detect_anomalies (fun _ => true) anomalyDemoDB demoPaymentEvent 1440 "d0").map
        (fun r => (r.severity, r.actual_value, r.expected_value))
      = [("critical", 1000, 100)] := by
  have hd : deviationRatio a e = |a - e| / e := by
    simp only [deviationRatio]
    rw [if_pos he]
  refine ⟨?_, ?_, ?_, ?_, ?_⟩
  · intro h
    simp only [severityOf, hd]
    rw [if_pos h]
  · rintro ⟨h1, h2⟩
    simp only [severityOf, hd]
    rw [if_neg (not_lt.mpr h2), if_pos h1]
  · rintro ⟨h1, h2⟩
    simp only [severityOf, hd]
    rw [if_neg (not_lt.mpr (by linarith)), if_neg (not_lt.mpr h2), if_pos h1]
  · intro h
    simp only [severityOf, hd]
    rw [if_neg (not_lt.mpr (by linarith)), if_neg (not_lt.mpr (by linarith)),
      if_neg (not_lt.mpr h)]
  · norm_num +decide [_detect_anomalies, _get_metric_type_from_event, anomalyDemoDB,
      anomalyBaselineRow, demoPaymentEvent, emptyDB, sortAscBy, insertAscBy, listMean,
      severityOf, deviationRatio, List.range_succ]

/-- Witness for `c4_severity_thresholds` at the spec's concrete instance. -/
theorem c4_severity_thresholds_witness : severityOf 1000 100 = "critical" :=
  (c4_severity_thresholds 1000 100 (by norm_num)).1 (by norm_num)

/-- C4 counterexample: at a deviation ratio of exactly 0.5 the claim demands
severity "critical" (ratio ≥ 0.5), but the code's strict comparison records
"high". -/
theorem c4_counterexample_boundary :
    |(150 : ℚ) - 100| / 100 = 1/2
    ∧ severityOf 150 100 = "high"
    ∧ ("high" : String) ≠ "critical" := by
  refine ⟨by norm_num, ?_, by decide⟩
  simp only [severityOf, deviationRatio]
  norm_num

/-- C10: the severity computation never divides by zero: whenever the expected
value is ≤ 0, the guard on analytics_service.py line 436 defines the deviation
ratio as 0 and every threshold test fails, so the severity is "low". -/
theorem c10_nonpositive_expected (a e : ℚ) (he : e ≤ 0) :
    deviationRatio a e = 0 ∧ severityOf a e = "low" := by
  have h0 : deviationRatio a e = 0 := by
    simp only [deviationRatio]
    rw [if_neg (not_lt.mpr he)]
  refine ⟨h0, ?_⟩
  simp only [severityOf, h0]
  norm_num

/-- Witness for `c10_nonpositive_expected` at expected value 0. -/
theorem c10_nonpositive_expected_witness :
    deviationRatio 5 0 = 0 ∧ severityOf 5 0 = "low" :=
  c10_nonpositive_expected 5 0 le_rfl

/-- FastAPI `HTTPException` as raised by the analytics service. -/
structure HTTPError where
  status_code : Nat
  detail : String
deriving DecidableEq, Repr

/-- One entry of the `chart_data` list built in
`AnalyticsService.get_realtime_chart_data` (analytics_service.py lines 128-136). -/
structure ChartPoint where
  timestamp : Nat
  date : TimeKey
  value : ℚ
  count : Nat
deriving DecidableEq, Repr

/-- The `aggregations` object of the chart response (lines 169-174). -/
structure Aggregations where
  total : ℚ
  count : Nat
  average : ℚ
  data_points : Nat
deriving DecidableEq, Repr

/-- One forecast dictionary returned by `AnalyticsService.get_forecast_data`
(lines 499-508). -/
structure ForecastJson where
  date : Nat
  predicted_value : ℚ
  confidence_lower : ℚ
  confidence_upper : ℚ
  model : String
deriving DecidableEq, Repr

/-- One anomaly dictionary returned by `AnalyticsService.get_recent_anomalies`
(lines 539-548). -/
structure AnomalyJson where
  timestamp : Nat
  actual_value : ℚ
  expected_value : ℚ
  severity : String
  anomaly_score : ℚ
deriving DecidableEq, Repr

/-- The dictionary returned by `AnalyticsService.get_realtime_chart_data`
(lines 164-183). -/
structure ChartResponse where
  metric_type : String
  time_range : String
  granularity : String
  data : List ChartPoint
  aggregations : Aggregations
  forecast : List ForecastJson
  anomalies : List AnomalyJson
  filter_shop_id : Option Nat
  filter_category_id : Option Nat
  filter_region : Option String
  generated_at : Nat
deriving DecidableEq, Repr

/-- Time-range dispatch of `AnalyticsService.get_realtime_chart_data`
(analytics_service.py lines 86-105): the look-back width in minutes and the
granularity.  Every branch — including the final `else` for unrecognized
ranges — REASSIGNS the `granularity` local, so the caller-supplied granularity
argument is discarded. -/
def chartTimeBounds (time_range : String) : Nat × String :=
  if time_range == "1h" then (60, "hourly")
  else if time_range == "24h" then (24 * 60, "hourly")
  else if time_range == "7d" then (7 * 1440, "daily")
  else if time_range == "30d" then (30 * 1440, "daily")
  else if time_range == "90d" then (90 * 1440, "daily")
  else (30 * 1440, "daily")

/-- `AnalyticsService.get_forecast_data` (analytics_service.py lines 476-512).
The `granularity` argument is accepted and ignored, as in the source. -/
def get_forecast_data (st : DBState) (metric_type granularity : String)
    (shop_id category_id : Option Nat) (region : Option String) (now : Nat) :
    List ForecastJson :=
  let q := st.forecasts.filter (fun f =>
    f.metric_type == metric_type && decide (now ≤ f.forecast_date))
  let q := if truthyNat shop_id then q.filter (fun f => decide (f.shop_id = shop_id)) else q
  let q := if truthyNat category_id then
    q.filter (fun f => decide (f.category_id = category_id)) else q
  let q := if truthyStr region then q.filter (fun f => decide (f.region = region)) else q
  ((sortAscBy (fun f => f.forecast_date) q).take 30).map (fun f =>
    { date := f.forecast_date
      predicted_value := f.predicted_value
      confidence_lower := f.confidence_lower
      confidence_upper := f.confidence_upper
      model := f.model_name })

/-- `AnalyticsService.get_recent_anomalies` (analytics_service.py lines 514-552):
anomalies of the trailing 24 hours, newest first, at most 10. -/
def get_recent_anomalies (st : DBState) (metric_type : String)
    (shop_id category_id : Option Nat) (region : Option String) (now : Nat) :
    List AnomalyJson :=
  let q := st.anomalies.filter (fun a =>
    a.metric_type == metric_type && decide (now - 1440 ≤ a.timestamp))
  let q := if truthyNat shop_id then q.filter (fun a => decide (a.shop_id = shop_id)) else q
  let q := if truthyNat category_id then
    q.filter (fun a => decide (a.category_id = category_id)) else q
  let q := if truthyStr region then q.filter (fun a => decide (a.region = region)) else q
  ((sortDescBy (fun a => a.timestamp) q).take 10).map (fun a =>
    { timestamp := a.timestamp
      actual_value := a.actual_value
      expected_value := a.expected_value
      severity := a.severity
      anomaly_score := a.anomaly_score })

/-- `AnalyticsService.log_audit_event` (analytics_service.py lines 34-68):
append one audit row and commit; `log_id` is the fresh uuid. -/
def log_audit_event (st : DBState) (user_id : Nat) (user_role action resource : String)
    (time_range : Option String) (status : String) (error_message : Option String)
    (log_id : String) : DBState :=
  { st with audit_logs := st.audit_logs ++
      [{ log_id := log_id
         user_id := user_id
         user_role := user_role
         action := action
         resource := resource
         time_range := time_range
         status := status
         error_message := error_message }] }

/-- The successful chart response of `AnalyticsService.get_realtime_chart_data`
(analytics_service.py lines 107-183) as a function of its inputs. -/
def chartResponseOf (st : DBState) (metric_type time_range : String)
    (shop_id category_id : Option Nat) (region : Option String) (now : Nat) :
    ChartResponse :=
  let start_time := now - (chartTimeBounds time_range).1
  let gran := (chartTimeBounds time_range).2
  let q := st.metrics.filter (fun m =>
    m.metric_type == metric_type && m.granularity == gran &&
    decide (start_time ≤ m.timestamp))
  let q := if truthyNat shop_id then q.filter (fun m => decide (m.shop_id = shop_id)) else q
  let q := if truthyNat category_id then
    q.filter (fun m => decide (m.category_id = category_id)) else q
  let q := if truthyStr region then q.filter (fun m => m.region == region.getD "") else q
  let ms := sortAscBy (fun m => m.timestamp) q
  let chart_data := ms.map (fun m =>
    ({ timestamp := m.timestamp, date := m.date_key, value := m.value,
       count := m.count } : ChartPoint))
  let total_value := (ms.map (fun m => m.value)).sum
  let total_count := (ms.map (fun m => m.count)).sum
  let avg_value := if ms ≠ [] then total_value / (ms.length : ℚ) else 0
  { metric_type := metric_type
    time_range := time_range
    granularity := gran
    data := chart_data
    aggregations :=
      { total := total_value
        count := total_count
        average := avg_value
        data_points := chart_data.length }
    forecast := get_forecast_data st metric_type gran shop_id category_id region now
    anomalies := get_recent_anomalies st metric_type shop_id category_id region now
    filter_shop_id := shop_id
    filter_category_id := category_id
    filter_region := region
    generated_at := now }

/-- `AnalyticsService.get_realtime_chart_data` (analytics_service.py lines
70-192).  `oops` injects an arbitrary internal exception raised inside the
`try` body before the success-path audit (a database or serialization error);
`none` is the exception-free run.  Audit logging happens ONLY under
`if user_id:` (lines 154 and 187) — Python truthiness, so `None` and `0` both
skip it; on an exception a "failed" audit entry (no time_range) is written and
HTTP 500 is raised (line 192). -/
def get_realtime_chart_data (st : DBState) (metric_type time_range granularity : String)
    (shop_id category_id : Option Nat) (region : Option String)
    (user_id : Option Nat) (user_role : String) (now : Nat)
    (oops : Option String) (log_id : String) :
    Except HTTPError ChartResponse × DBState :=
  match oops with
  | some msg =>
    let st2 := if truthyNat user_id then
        log_audit_event st (user_id.getD 0) user_role "view_chart"
          (metric_type ++ "_chart") none "failed" (some msg) log_id
      else st
    (.error { status_code := 500, detail := "Failed to get chart data" }, st2)
  | none =>
    let st2 := if truthyNat user_id then
        log_audit_event st (user_id.getD 0) user_role "view_chart"
          (metric_type ++ "_chart") (some time_range) "success" none log_id
      else st
    (.ok (chartResponseOf st metric_type time_range shop_id category_id region now), st2)

/-- Granularity observed on a chart-data result, when it is a success. -/
def responseGranularity : Except HTTPError ChartResponse → Option String
  | .ok r => some r.granularity
  | .error _ => none

/-- C5 counterexample: a successful chart-data call that carries no `user_id`
(the service's `user_id` parameter defaults to `None`, line 79) writes NO audit
entry at all — the audit call sits under `if user_id:` (line 154) — refuting
"every call records exactly one AuditEntry". -/
theorem c5_counterexample_no_user_no_audit :
    (get_realtime_chart_data emptyDB "orders" "24h" "hourly" none none none none
        "ADMIN" 0 none "L5").1
      = Except.ok (chartResponseOf emptyDB "orders" "24h" none none none 0)
    ∧ ((get_realtime_chart_data emptyDB "orders" "24h" "hourly" none none none none
        "ADMIN" 0 none "L5").2).audit_logs = [] := by
  constructor <;> rfl

/-- C5 (amended): every chart-data call that carries a truthy `user_id` —
whether it succeeds or fails — appends exactly one audit entry: status
"success" on the exception-free run, status "failed" with the error message
when an internal exception is raised. -/
theorem c5_audit_iff_user (st : DBState) (metric_type time_range granularity : String)
    (shop_id category_id : Option Nat) (region : Option String) (user_id : Option Nat)
    (user_role : String) (now : Nat) (oops : Option String) (log_id : String)
    (h : truthyNat user_id = true) :
    ∃ entry : AnalyticsAuditLog,
      (get_realtime_chart_data st metric_type time_range granularity shop_id category_id
          region user_id user_role now oops log_id).2.audit_logs
        = st.audit_logs ++ [entry]
      ∧ (oops = none → entry.status = "success" ∧ entry.error_message = none)
      ∧ (∀ msg, oops = some msg → entry.status = "failed" ∧ entry.error_message = some msg) := by
  cases oops with
  | none =>
    refine ⟨{ log_id := log_id, user_id := user_id.getD 0, user_role := user_role,
              action := "view_chart", resource := metric_type ++ "_chart",
              time_range := some time_range, status := "success",
              error_message := none }, ?_, fun _ => ⟨rfl, rfl⟩, fun msg hm => by cases hm⟩
    simp only [get_realtime_chart_data]
    rw [if_pos h]
    rfl
  | some msg =>
    refine ⟨{ log_id := log_id, user_id := user_id.getD 0, user_role := user_role,
              action := "view_chart", resource := metric_type ++ "_chart",
              time_range := none, status := "failed",
              error_message := some msg }, ?_, ?_, ?_⟩
    · simp only [get_realtime_chart_data]
      rw [if_pos h]
      rfl
    · intro hx
      cases hx
    · intro msg2 hm
      cases hm
      exact ⟨rfl, rfl⟩

/-- Witness for `c5_audit_iff_user` on a concrete successful call. -/
theorem c5_audit_iff_user_witness :
    truthyNat (some 1) = true
    ∧ ∃ entry : AnalyticsAuditLog,
      (get_realtime_chart_data emptyDB "orders" "24h" "auto" none none none (some 1)
          "ADMIN" 0 none "L6").2.audit_logs
        = emptyDB.audit_logs ++ [entry]
      ∧ ((none : Option String) = none → entry.status = "success" ∧ entry.error_message = none)
      ∧ (∀ msg, (none : Option String) = some msg →
          entry.status = "failed" ∧ entry.error_message = some msg) :=
  ⟨rfl, c5_audit_iff_user emptyDB "orders" "24h" "auto" none none none (some 1)
    "ADMIN" 0 none "L6" rfl⟩

/-- C6 counterexample: a call that explicitly supplies granularity "hourly" for
time_range "7d" still gets "daily" — the service reassigns `granularity` in
every branch of the time-range dispatch (lines 88-105), discarding the
caller's choice. -/
theorem c6_counterexample_override_ignored :
    responseGranularity (get_realtime_chart_data emptyDB "orders" "7d" "hourly"
        none none none (some 1) "ADMIN" 100000 none "L7").1 = some "daily"
    ∧ ("daily" : String) ≠ "hourly" := by
  constructor
  · rfl
  · decide

/-- C6 (amended): the caller-supplied granularity never influences a chart-data
call: two calls differing only in the granularity argument are identical, and
the granularity actually used is derived solely from time_range — hourly for
"1h"/"24h", daily for everything else. -/
theorem c6_granularity_always_derived (st : DBState)
    (metric_type time_range g g' : String) (shop_id category_id : Option Nat)
    (region : Option String) (user_id : Option Nat) (user_role : String) (now : Nat)
    (oops : Option String) (log_id : String) :
    get_realtime_chart_data st metric_type time_range g shop_id category_id region
        user_id user_role now oops log_id
      = get_realtime_chart_data st metric_type time_range g' shop_id category_id region
        user_id user_role now oops log_id
    ∧ ((time_range = "1h" ∨ time_range = "24h") →
        responseGranularity (get_realtime_chart_data st metric_type time_range g shop_id
          category_id region user_id user_role now none log_id).1 = some "hourly")
    ∧ (time_range ≠ "1h" → time_range ≠ "24h" →
        responseGranularity (get_realtime_chart_data st metric_type time_range g shop_id
          category_id region user_id user_role now none log_id).1 = some "daily") := by
  refine ⟨rfl, ?_, ?_⟩
  · rintro (rfl | rfl) <;> rfl
  · intro h1 h2
    have hg : responseGranularity (get_realtime_chart_data st metric_type time_range g
        shop_id category_id region user_id user_role now none log_id).1
      = some (chartTimeBounds time_range).2 := rfl
    rw [hg]
    simp only [chartTimeBounds]
    rw [if_neg (by simpa using h1), if_neg (by simpa using h2)]
    split_ifs <;> rfl

/-- Witness for `c6_granularity_always_derived` at concrete inputs. -/
theorem c6_granularity_always_derived_witness :
    responseGranularity (get_realtime_chart_data emptyDB "orders" "24h" "whatever"
        none none none none "ADMIN" 0 none "L8").1 = some "hourly" :=
  (c6_granularity_always_derived emptyDB "orders" "24h" "whatever" "x" none none none
    none "ADMIN" 0 none "L8").2.1 (Or.inr rfl)

/-- C9: a chart-data call with a time_range outside {1h, 24h, 7d, 30d, 90d}
does not fail: the final `else` (lines 103-105) silently uses a 30-day
look-back with daily granularity, and the response is the normal chart
response — identical, apart from the echoed time_range string, to the response
for "30d". -/
theorem c9_unknown_time_range_defaults (time_range : String)
    (h : time_range ∉ (["1h", "24h", "7d", "30d", "90d"] : List String))
    (st : DBState) (metric_type g : String) (shop_id category_id : Option Nat)
    (region : Option String) (user_id : Option Nat) (user_role : String) (now : Nat)
    (log_id : String) :
    chartTimeBounds time_range = (30 * 1440, "daily")
    ∧ (get_realtime_chart_data st metric_type time_range g shop_id category_id region
        user_id user_role now none log_id).1
      = Except.ok (chartResponseOf st metric_type time_range shop_id category_id region now)
    ∧ (chartResponseOf st metric_type time_range shop_id category_id region now).granularity
      = "daily"
    ∧ ({ chartResponseOf st metric_type time_range shop_id category_id region now
          with time_range := "30d" } : ChartResponse)
      = chartResponseOf st metric_type "30d" shop_id category_id region now := by
  simp only [List.mem_cons, List.mem_singleton, not_or] at h
  obtain ⟨h1, h2, h3, h4, h5⟩ := h
  have hb : chartTimeBounds time_range = (30 * 1440, "daily") := by
    simp only [chartTimeBounds]
    rw [if_neg (by simpa using h1), if_neg (by simpa using h2),
      if_neg (by simpa using h3), if_neg (by simpa using h4),
      if_neg (by simpa using h5)]
  have hb30 : chartTimeBounds "30d" = (30 * 1440, "daily") := rfl
  refine ⟨hb, rfl, ?_, ?_⟩
  · show (chartTimeBounds time_range).2 = "daily"
    rw [hb]
  · simp only [chartResponseOf, hb, hb30]

/-- Witness for `c9_unknown_time_range_defaults` at the unknown range "42d". -/
theorem c9_unknown_time_range_defaults_witness :
    chartTimeBounds "42d" = (30 * 1440, "daily")
    ∧ (get_realtime_chart_data emptyDB "orders" "42d" "auto" none none none none
        "ADMIN" 0 none "L9").1
      = Except.ok (chartResponseOf emptyDB "orders" "42d" none none none 0)
    ∧ (chartResponseOf emptyDB "orders" "42d" none none none 0).granularity = "daily"
    ∧ ({ chartResponseOf emptyDB "orders" "42d" none none none 0
          with time_range := "30d" } : ChartResponse)
      = chartResponseOf emptyDB "orders" "30d" none none none 0 :=
  c9_unknown_time_range_defaults "42d" (by decide) emptyDB "orders" "auto" none none
    none none "ADMIN" 0 "L9"

/-- Least-squares slope of sklearn's `LinearRegression` fitted on
`X = [0, 1, ..., n-1]` against the values `ys` (analytics_service.py lines
348-353), in exact rational arithmetic. -/
def linregSlope (ys : List ℚ) : ℚ :=
  let n : ℚ := ys.length
  let xs : List ℚ := (List.range ys.length).map (fun i => (i : ℚ))
  let sx := xs.sum
  let sy := ys.sum
  let sxx := (xs.map (fun x => x * x)).sum
  let sxy := ((xs.zip ys).map (fun p => p.1 * p.2)).sum
  let den := n * sxx - sx * sx
  if den = 0 then 0 else (n * sxy - sx * sy) / den

/-- Least-squares intercept of the same fit. -/
def linregIntercept (ys : List ℚ) : ℚ :=
  listMean ys - linregSlope ys * listMean ((List.range ys.length).map (fun i => (i : ℚ)))

/-- `model.predict([[x]])` for the fitted linear model. -/
def linregPredict (ys : List ℚ) (x : ℚ) : ℚ :=
  linregIntercept ys + linregSlope ys * x

/-- Residuals `y - model.predict(X)` of the fit (line 362). -/
def linregResiduals (ys : List ℚ) : List ℚ :=
  (ys.zip (List.range ys.length)).map (fun p => p.1 - linregPredict ys (p.2 : ℚ))

/-- Population variance, the radicand of `np.std` (line 363). -/
def npVariance (l : List ℚ) : ℚ :=
  listMean (l.map (fun r => (r - listMean l) * (r - listMean l)))

/-- The daily history pulled by `AnalyticsService.generate_forecast`
(analytics_service.py lines 323-342): daily rows of the metric in the trailing
30 days, dimensional filters applied under Python truthiness, ascending by
timestamp. -/
def forecastHistory (st : DBState) (metric_type : String)
    (shop_id category_id : Option Nat) (region : Option String) (now : Nat) :
    List AnalyticsMetric :=
  let q := st.metrics.filter (fun m =>
    m.metric_type == metric_type && m.granularity == "daily" &&
    decide (now - 30 * 1440 ≤ m.timestamp))
  let q := if truthyNat shop_id then q.filter (fun m => decide (m.shop_id = shop_id)) else q
  let q := if truthyNat category_id then
    q.filter (fun m => decide (m.category_id = category_id)) else q
  let q := if truthyStr region then q.filter (fun m => m.region == region.getD "") else q
  sortAscBy (fun m => m.timestamp) q

/-- One forecast dictionary of the list returned by `generate_forecast`
(lines 385-390). -/
structure ForecastOut where
  date : Nat
  predicted_value : ℚ
  confidence_lower : ℚ
  confidence_upper : ℚ
deriving DecidableEq, Repr

/-- `AnalyticsService.generate_forecast` (analytics_service.py lines 314-397).
With fewer than 7 daily points the guard on line 344 returns `[]` before any
model fitting or persistence; otherwise one `MLForecast` row per future day is
added and committed.  `sqrtA` abstracts numpy's floating-point square root in
`np.std` (line 363); `forecast_ids` supplies the per-row uuids.  The body is
wrapped in `try/except` returning `[]`, so the embedding is a total function —
the call never raises. -/
def generate_forecast (sqrtA : ℚ → ℚ) (st : DBState) (metric_type : String)
    (days_ahead : Nat) (shop_id category_id : Option Nat) (region : Option String)
    (now : Nat) (forecast_ids : Nat → String) : List ForecastOut × DBState :=
  let historical := forecastHistory st metric_type shop_id category_id region now
  if historical.length < 7 then ([], st)
  else
    let ys := historical.map (fun m => m.value)
    let std_error := sqrtA (npVariance (linregResiduals ys))
    let rows := (List.range days_ahead).map (fun j =>
      let i := j + 1
      let predicted_value := linregPredict ys ((historical.length + i - 1 : Nat) : ℚ)
      let confidence_lower := predicted_value - 196/100 * std_error
      let confidence_upper := predicted_value + 196/100 * std_error
      let forecast_date := now + i * 1440
      (({ forecast_id := forecast_ids i
          metric_type := metric_type
          forecast_date := forecast_date
          predicted_value := predicted_value
          confidence_lower := confidence_lower
          confidence_upper := confidence_upper
          model_name := "linear_regression"
          model_version := "1.0"
          shop_id := shop_id
          category_id := category_id
          region := region } : MLForecast),
       ({ date := forecast_date
          predicted_value := predicted_value
          confidence_lower := confidence_lower
          confidence_upper := confidence_upper } : ForecastOut)))
    (rows.map (fun p => p.2), { st with forecasts := st.forecasts ++ rows.map (fun p => p.1) })

/-- C8: with fewer than 7 daily historical points in the trailing 30 days,
forecast generation returns the empty list, persists nothing, and — being a
total function whose body is the source's `try/except`-wrapped code — never
raises; the empty result is the expected cold-start outcome. -/
theorem c8_insufficient_history_empty (sqrtA : ℚ → ℚ) (st : DBState)
    (metric_type : String) (days_ahead : Nat) (shop_id category_id : Option Nat)
    (region : Option String) (now : Nat) (forecast_ids : Nat → String)
    (h : (forecastHistory st metric_type shop_id category_id region now).length < 7) :
    generate_forecast sqrtA st metric_type days_ahead shop_id category_id region now
      forecast_ids = ([], st) := by
  simp only [generate_forecast]
  rw [if_pos h]

/-- Witness for `c8_insufficient_history_empty` on the empty store. -/
theorem c8_insufficient_history_empty_witness :
    generate_forecast (fun q => q) emptyDB "revenue" 7 none none none 50000
      (fun _ => "f") = ([], emptyDB) :=
  c8_insufficient_history_empty (fun q => q) emptyDB "revenue" 7 none none none 50000
    (fun _ => "f") (by decide)

/-- Metadata stored per connection in `ConnectionManager.active_connections`
(websocket_service.py lines 47-55); `filters_shop_id` is the `shop_id` entry of
the connection's `filters` dict (`none` covers an absent dict, an empty dict
and an absent key — all falsy in the only test the code performs on it). -/
structure ConnInfo where
  user_id : Nat
  user_role : String
  connection_type : String
  filters_shop_id : Option Nat
  connected_at : Nat
  last_activity : Nat
deriving DecidableEq, Repr

/-- State of `ConnectionManager` (websocket_service.py lines 21-32):
`active_connections` keyed by connection id, per-topic subscriber sets, and
per-user session sets. -/
structure ConnectionManager where
  active_connections : List (String × ConnInfo)
  subscriptions : List (String × List String)
  user_sessions : List (Nat × List String)
deriving DecidableEq, Repr

/-- Dictionary lookup on an association list. -/
def alistFind [BEq κ] (l : List (κ × α)) (k : κ) : Option α :=
  (l.find? (fun p => p.1 == k)).map (fun p => p.2)

/-- Python `x or y` on the optional shop ids of
`_check_access_permission` line 152: the left value when truthy, else the
right; all falsy results (`None`, `0`, empty dict) behave identically in the
truthiness-and-equality tests downstream. -/
def pyOrShopId (a b : Option Nat) : Option Nat := if truthyNat a then a else b

/-- `ConnectionManager._check_access_permission` (websocket_service.py lines
141-162): ADMIN sees everything; SHOP_OWNER compares the message's shop id
(`message.get("shop_id") or (filters and filters.get("shop_id"))`) with the
connection's bound shop id only when both are truthy, and is allowed otherwise;
every other role is denied. -/
def _check_access_permission (info : ConnInfo) (message_shop_id : Option Nat)
    (filters_shop_id : Option Nat) : Bool :=
  if info.user_role == "ADMIN" then true
  else if info.user_role == "SHOP_OWNER" then
    let msid := pyOrShopId message_shop_id filters_shop_id
    let connection_shop_id := info.filters_shop_id
    if truthyNat msid && truthyNat connection_shop_id then
      decide (msid = connection_shop_id)
    else true
  else false

/-- The subscriber set of a topic (`self.subscriptions[subscription_type]`),
empty for an unknown topic (line 115 returns early). -/
def subscribersOf (mgr : ConnectionManager) (topic : String) : List String :=
  (alistFind mgr.subscriptions topic).getD []

/-- `ConnectionManager.broadcast_to_subscription` (websocket_service.py lines
113-139): the connection ids actually sent the message — subscribers of the
topic that are still in `active_connections` and pass the access check.
`message_shop_id` is the message's own `shop_id` entry, `filters_shop_id` the
`shop_id` of the optional `filters` argument; stale ids and per-recipient send
failures are cleaned up without affecting delivery to the others. -/
def broadcast_to_subscription (mgr : ConnectionManager) (topic : String)
    (message_shop_id : Option Nat) (filters_shop_id : Option Nat) : List String :=
  (subscribersOf mgr topic).filter (fun cid =>
    match alistFind mgr.active_connections cid with
    | none => false
    | some info => _check_access_permission info message_shop_id filters_shop_id)

/-- `ConnectionManager.cleanup_inactive_connections` (websocket_service.py
lines 245-267).  Line 5 of the module imports only `datetime` from the
`datetime` package, so the name `timedelta` used in the body's first statement
(line 247, `datetime.utcnow() - timedelta(minutes=timeout_minutes)`) is
unbound: every call raises `NameError` before reading or mutating any
connection state, and no idle connection is ever disconnected by the sweep. -/
def cleanup_inactive_connections (mgr : ConnectionManager) (timeout_minutes : Nat) :
    Except String ConnectionManager :=
  Except.error "NameError: name timedelta is not defined"

/-- A manager with a single active CUSTOMER-role connection subscribed to the
"analytics" topic. -/
def customerOnlyMgr : ConnectionManager :=
  { active_connections := [("c1",
      { user_id := 7, user_role := "CUSTOMER", connection_type := "analytics",
        filters_shop_id := none, connected_at := 0, last_activity := 0 })]
    subscriptions := [("analytics", ["c1"]), ("shop_analytics", []),
      ("anomalies", []), ("forecasts", [])]
    user_sessions := [(7, ["c1"])] }

/-- C3 counterexample: a message carrying no shop_id is NOT delivered to all
subscribed connections — a subscribed, active CUSTOMER-role connection receives
nothing, because `_check_access_permission` (line 162) denies every role other
than ADMIN and SHOP_OWNER. -/
theorem c3_counterexample_customer_excluded :
    "c1" ∈ subscribersOf customerOnlyMgr "analytics"
    ∧ (alistFind customerOnlyMgr.active_connections "c1").isSome = true
    ∧ "c1" ∉ broadcast_to_subscription customerOnlyMgr "analytics" none none := by
  refine ⟨by decide, by decide, by decide⟩

/-- C3 (amended): for every broadcast, a subscribed active connection receives
the message as follows — an ADMIN connection always; a SHOP_OWNER connection
bound to a truthy (nonzero) shop_id A for every message whose effective shop id
is A, and never for a message whose effective truthy shop id is B ≠ A; a
message carrying no truthy shop id reaches every subscribed ADMIN and
SHOP_OWNER connection; connections of any other role receive nothing.  The
effective shop id is the message's own shop_id or, failing that, the broadcast
scope's. -/
theorem c3_broadcast_scoping (mgr : ConnectionManager) (topic cid : String)
    (info : ConnInfo) (message_shop_id filters_shop_id : Option Nat)
    (hsub : cid ∈ subscribersOf mgr topic)
    (hact : alistFind mgr.active_connections cid = some info) :
    (info.user_role = "ADMIN" →
      cid ∈ broadcast_to_subscription mgr topic message_shop_id filters_shop_id)
    ∧ (info.user_role = "SHOP_OWNER" → ∀ a : Nat, info.filters_shop_id = some a → a ≠ 0 →
        ((pyOrShopId message_shop_id filters_shop_id = some a →
            cid ∈ broadcast_to_subscription mgr topic message_shop_id filters_shop_id)
         ∧ (∀ b : Nat, b ≠ 0 → b ≠ a →
            pyOrShopId message_shop_id filters_shop_id = some b →
            cid ∉ broadcast_to_subscription mgr topic message_shop_id filters_shop_id)))
    ∧ (truthyNat (pyOrShopId message_shop_id filters_shop_id) = false →
        (info.user_role = "ADMIN" ∨ info.user_role = "SHOP_OWNER") →
        cid ∈ broadcast_to_subscription mgr topic message_shop_id filters_shop_id)
    ∧ (info.user_role ≠ "ADMIN" → info.user_role ≠ "SHOP_OWNER" →
        cid ∉ broadcast_to_subscription mgr topic message_shop_id filters_shop_id) := by
  have hmem :
      (cid ∈ (subscribersOf mgr topic).filter (fun c =>
        match alistFind mgr.active_connections c with
        | none => false
        | some i => _check_access_permission i message_shop_id filters_shop_id))
      ↔ (cid ∈ subscribersOf mgr topic
          ∧ _check_access_permission info message_shop_id filters_shop_id = true) := by
    rw [List.mem_filter, hact]
  refine ⟨?_, ?_, ?_, ?_⟩
  · intro hrole
    rw [broadcast_to_subscription, hmem]
    refine ⟨hsub, ?_⟩
    simp [_check_access_permission, hrole]
  · intro hrole a hbound ha
    constructor
    · intro hmsg
      rw [broadcast_to_subscription, hmem]
      refine ⟨hsub, ?_⟩
      simp only [_check_access_permission, hrole]
      norm_num
      rw [hmsg, hbound]
      simp [truthyNat, ha]
    · intro b hb hba hmsg
      rw [broadcast_to_subscription, hmem]
      rintro ⟨-, hperm⟩
      simp only [_check_access_permission, hrole] at hperm
      norm_num at hperm
      rw [hmsg, hbound] at hperm
      simp [truthyNat, hb, ha] at hperm
      exact hba hperm
  · intro hfalsy hrole
    rw [broadcast_to_subscription, hmem]
    refine ⟨hsub, ?_⟩
    rcases hrole with hrole | hrole
    · simp [_check_access_permission, hrole]
    · simp only [_check_access_permission, hrole]
      norm_num
      rw [hfalsy]
      simp
  · intro h1 h2
    rw [broadcast_to_subscription, hmem]
    rintro ⟨-, hperm⟩
    simp only [_check_access_permission] at hperm
    rw [if_neg (by simpa using h1), if_neg (by simpa using h2)] at hperm
    exact Bool.false_ne_true hperm

/-- A manager with one ADMIN connection and two SHOP_OWNER connections bound to
shops 1 and 2, all subscribed to "anomalies". -/
def scopedMgr : ConnectionManager :=
  { active_connections :=
      [("a1", { user_id := 1, user_role := "ADMIN", connection_type := "anomalies",
                filters_shop_id := none, connected_at := 0, last_activity := 0 }),
       ("s1", { user_id := 2, user_role := "SHOP_OWNER", connection_type := "anomalies",
                filters_shop_id := some 1, connected_at := 0, last_activity := 0 }),
       ("s2", { user_id := 3, user_role := "SHOP_OWNER", connection_type := "anomalies",
                filters_shop_id := some 2, connected_at := 0, last_activity := 0 })]
    subscriptions := [("analytics", []), ("shop_analytics", []),
      ("anomalies", ["a1", "s1", "s2"]), ("forecasts", [])]
    user_sessions := [(1, ["a1"]), (2, ["s1"]), (3, ["s2"])] }

/-- Witness for `c3_broadcast_scoping`: on `scopedMgr`, a broadcast on
"anomalies" scoped to shop 1 reaches the owner bound to shop 1 and misses the
owner bound to shop 2. -/
theorem c3_broadcast_scoping_witness :
    "s1" ∈ broadcast_to_subscription scopedMgr "anomalies" (some 1) none
    ∧ "s2" ∉ broadcast_to_subscription scopedMgr "anomalies" (some 1) none :=
  ⟨((c3_broadcast_scoping scopedMgr "anomalies" "s1"
      { user_id := 2, user_role := "SHOP_OWNER", connection_type := "anomalies",
        filters_shop_id := some 1, connected_at := 0, last_activity := 0 }
      (some 1) none (by decide) (by decide)).2.1 rfl 1 rfl (by decide)).1 rfl,
   ((c3_broadcast_scoping scopedMgr "anomalies" "s2"
      { user_id := 3, user_role := "SHOP_OWNER", connection_type := "anomalies",
        filters_shop_id := some 2, connected_at := 0, last_activity := 0 }
      (some 1) none (by decide) (by decide)).2.1 rfl 2 rfl (by decide)).2
     1 (by decide) (by decide) rfl⟩

/-- C7: the idle-connection sweep never disconnects anything — every call of
`cleanup_inactive_connections` raises `NameError` at its first statement
because `timedelta` is not imported (websocket_service.py line 5 vs line 247),
so no state is returned and no idle connection is removed from the connection
map, the subscription sets or the user-session table. -/
theorem c7_cleanup_always_raises (mgr : ConnectionManager) (timeout_minutes : Nat) :
    cleanup_inactive_connections mgr timeout_minutes
      = Except.error "NameError: name timedelta is not defined" := rfl

end IziShop
